import Mathlib

/-!
Verification development for the Allegheny County overdose dashboard
(streamlit_app.py). The data-tidying pipeline, the filter engine, the
drug-combination aggregator and the loader fallback logic are shallowly
embedded below; pandas DataFrames become an explicit column-schema plus
association-list rows, and pandas cells become a small dynamic value type.
Numeric cells are modelled as integers (the records of interest carry
integer years and ages); floating point is out of scope.
-/

/-- A pandas cell: missing (NaN / pd.NA / None), a string, or a number
(modelled as an integer). -/
inductive Cell where
  | na : Cell
  | str : String → Cell
  | int : Int → Cell
deriving DecidableEq

/-- A DataFrame row: association list from column name to cell.
A column in the schema but absent from the row reads as missing. -/
def DfRow := List (String × Cell)

instance : DecidableEq DfRow := by
  unfold DfRow; infer_instance

/-- Read a cell; absent association reads as missing (pandas fills NaN). -/
def DfRow.get : DfRow → String → Cell
  | [], _ => Cell.na
  | (c', v) :: rest, c => if c' = c then v else DfRow.get rest c

/-- Write a cell, replacing an existing association or appending. -/
def DfRow.set : DfRow → String → Cell → DfRow
  | [], c, v => [(c, v)]
  | (c', v') :: rest, c, v =>
      if c' = c then (c, v) :: rest else (c', v') :: DfRow.set rest c v

/-- A DataFrame: ordered column schema plus rows. -/
structure Df where
  cols : List String
  rows : List DfRow
deriving DecidableEq

/-- Column assignment df[c] = f(row), elementwise over rows; a new column
name is appended to the schema. -/
def Df.setColF (df : Df) (c : String) (f : DfRow → Cell) : Df :=
  { cols := if c ∈ df.cols then df.cols else df.cols ++ [c],
    rows := df.rows.map (fun r => r.set c (f r)) }

/-! ## Python string primitives used by the source -/

/-- Python str.upper for the ASCII letters the data uses. -/
def pyUpper (s : String) : String := ⟨s.toList.map Char.toUpper⟩

/-- Python str.lower for the ASCII letters the data uses. -/
def pyLower (s : String) : String := ⟨s.toList.map Char.toLower⟩

/-- Strip leading and trailing whitespace from a character list. -/
def stripChars (l : List Char) : List Char :=
  ((l.dropWhile Char.isWhitespace).reverse.dropWhile Char.isWhitespace).reverse

/-- Python str.strip. -/
def pyStrip (s : String) : String := ⟨stripChars s.toList⟩

/-- Python substring containment: pat in s. -/
def pyIn (pat s : String) : Bool := decide (pat.toList <:+: s.toList)

/-- Python str.title on ASCII: the first letter of each maximal letter run
is uppercased, the following letters lowercased. -/
def pyTitleAux : Bool → List Char → List Char
  | _, [] => []
  | prevCased, c :: rest =>
      if c.isAlpha then
        (if prevCased then c.toLower else c.toUpper) :: pyTitleAux true rest
      else
        c :: pyTitleAux false rest

/-- Python str.title. -/
def pyTitle (s : String) : String := ⟨pyTitleAux false s.toList⟩

/-- Python str() of a cell as produced by Series.astype(str), where the
missing value is a float NaN (the case in the zip pipeline). -/
def cellStr : Cell → String
  | Cell.na => "nan"
  | Cell.str s => s
  | Cell.int n => toString n

/-- pd.to_numeric(x, errors="coerce") restricted to integer literals:
missing stays missing, numbers pass through, strings parse or coerce
to missing. -/
def digitsToNat (l : List Char) : Nat :=
  l.foldl (fun a c => a * 10 + (c.toNat - 48)) 0

/-- Parse a (whitespace-trimmed, optionally negated) integer literal. -/
def parseIntStr (s : String) : Option Int :=
  match stripChars s.toList with
  | [] => none
  | '-' :: rest =>
      if rest ≠ [] ∧ rest.all Char.isDigit then some (-(digitsToNat rest : Int))
      else none
  | l =>
      if l.all Char.isDigit then some ((digitsToNat l : Int)) else none

/-- Numeric coercion of a cell. -/
def toNumeric : Cell → Option Int
  | Cell.na => none
  | Cell.int n => some n
  | Cell.str s => parseIntStr s

/-- Numeric coercion packaged back into a cell column. -/
def numCell (v : Cell) : Cell :=
  match toNumeric v with
  | some n => Cell.int n
  | none => Cell.na

/-! ## The tidy pipeline (function tidy, src/streamlit_app.py lines 77-162) -/

/-- Python str.zfill(5): left-pad with zeros to width 5. -/
def zfill5 (s : String) : String :=
  if s.length ≥ 5 then s else ⟨List.replicate (5 - s.length) '0' ++ s.toList⟩

/-- First window of five consecutive digit characters, Series.str.extract
with pattern (\d{5}). -/
def extract5 : List Char → Option (List Char)
  | [] => none
  | c :: rest =>
      if 5 ≤ (c :: rest).length ∧ ((c :: rest).take 5).all Char.isDigit = true
      then some ((c :: rest).take 5)
      else extract5 rest

/-- The zip normalization of one cell:
astype(str).str.extract(r"(\d{5})")[0].astype(str).str.zfill(5).
A no-match becomes the float NaN, whose astype(str) is the string "nan",
which zfill pads to "00nan". -/
def zipNormCell (v : Cell) : Cell :=
  Cell.str (zfill5 (match extract5 (cellStr v).toList with
    | some ds => (⟨ds⟩ : String)
    | none => "nan"))

/-- Sex normalization: fillna("Unknown") then replace M/F/U. -/
def sexNorm (v : Cell) : Cell :=
  match v with
  | Cell.na => Cell.str "Unknown"
  | Cell.str "M" => Cell.str "Male"
  | Cell.str "F" => Cell.str "Female"
  | Cell.str "U" => Cell.str "Unknown"
  | v => v

/-- The five zip candidate columns, in source priority order. -/
def ZIP_CANDIDATES : List String :=
  ["incident_zip", "zip", "zipcode", "incident_zipcode", "zcta"]

/-- First candidate column present in the schema. -/
def findCol (cols : List String) : List String → Option String
  | [] => none
  | c :: cs => if c ∈ cols then some c else findCol cols cs

/-- Year stage: df["year"] from case_year, else death_year, else NaN. -/
def yearStage (df : Df) : Df :=
  if "case_year" ∈ df.cols then df.setColF "year" (fun r => numCell (r.get "case_year"))
  else if "death_year" ∈ df.cols then df.setColF "year" (fun r => numCell (r.get "death_year"))
  else df.setColF "year" (fun _ => Cell.na)

/-- Sex stage: normalize in place, or create a constant Unknown column. -/
def sexStage (df : Df) : Df :=
  if "sex" ∈ df.cols then df.setColF "sex" (fun r => sexNorm (r.get "sex"))
  else df.setColF "sex" (fun _ => Cell.str "Unknown")

/-- Age stage: numeric coercion only when an age column exists. -/
def ageStage (df : Df) : Df :=
  if "age" ∈ df.cols then df.setColF "age" (fun r => numCell (r.get "age")) else df

/-- Zip stage: first present candidate column is normalized into zip_norm;
with no candidate the column is created all-missing (pd.NA). -/
def zipStage (df : Df) : Df :=
  match findCol df.cols ZIP_CANDIDATES with
  | none => df.setColF "zip_norm" (fun _ => Cell.na)
  | some zc => df.setColF "zip_norm" (fun r => zipNormCell (r.get zc))

/-- The in-place mutation tidy performs on the frame of the caller is
modelled by
this function: the state of the argument DataFrame object after the four
column assignments of tidy (lines 79-111). The later rebinding
df = df[...] (line 151) creates a new object and does not affect the
caller. -/
def tidyDf (df : Df) : Df := zipStage (ageStage (sexStage (yearStage df)))

/-- Substance-column predicate: c.lower().startswith("combined_od"). -/
def odColPat (c : String) : Bool := "combined_od".toList.isPrefixOf (pyLower c).toList

/-- The substance columns of a schema, in order. -/
def odCols (df : Df) : List String := df.cols.filter odColPat

/-- Keyword classification of one substance cell (function classify,
lines 116-130): non-strings are excluded, every string classifies —
including the empty string, which reaches the Other/Unknown catch-all. -/
def classify (cell : Cell) : Option String :=
  match cell with
  | Cell.str c =>
      let s := pyUpper c
      if pyIn "FENTANYL" s then some "Fentanyl"
      else if pyIn "HEROIN" s then some "Heroin"
      else if pyIn "COCAINE" s then some "Cocaine"
      else if pyIn "ALCOHOL" s then some "Alcohol"
      else if pyIn "MORPHINE" s || pyIn "OXYCODONE" s || pyIn "HYDROCODONE" s
              || pyIn "OPIOID" s || pyIn "OPIATE" s then some "Other Opioids"
      else some "Other/Unknown"
  | _ => none

/-- One row of the long (melted) table after dropna on substance. -/
structure LongRow where
  year : Cell
  sex : Cell
  age : Cell
  zip_norm : Cell
  od_col : String
  raw_substance : Cell
  substance : String
deriving DecidableEq

/-- df.melt over the substance columns followed by classification and
dropna(subset=["substance"]): one long row per (substance column, record)
pair whose cell classifies. -/
def mkLong (df : Df) (ods : List String) : List LongRow :=
  (ods.flatMap (fun c => df.rows.map (fun r => (c, r)))).filterMap (fun p =>
    match classify ((p.2).get p.1) with
    | some sub =>
        some { year := (p.2).get "year", sex := (p.2).get "sex",
               age := (p.2).get "age", zip_norm := (p.2).get "zip_norm",
               od_col := p.1, raw_substance := (p.2).get p.1, substance := sub }
    | none => none)

/-- The present (non-missing) years of the frame. -/
def presentYears (df : Df) : List Int :=
  df.rows.filterMap (fun r =>
    match r.get "year" with
    | Cell.int n => some n
    | _ => none)

/-- Year bounds (lines 144-149): floor 2008 under the observed minimum,
observed maximum; defaults [2008, 2025] when no year is present. -/
def yearBoundsOf (ys : List Int) : Int × Int :=
  match ys.min?, ys.max? with
  | some a, some b => (max a 2008, b)
  | _, _ => ((2008 : Int), (2025 : Int))

/-- Series.between(lo, hi, inclusive="both"); NaN compares false. -/
def yearInRange (lo hi : Int) (c : Cell) : Bool :=
  match c with
  | Cell.int n => decide (lo ≤ n ∧ n ≤ hi)
  | _ => false

/-- The metadata record returned by tidy. -/
structure DatasetMeta where
  year_min : Int
  year_max : Int
  has_substances : Bool
  has_zip : Bool
  source : String
  api_url : String
deriving DecidableEq

def SOURCE_LABEL : String := "WPRDC - Allegheny County Fatal Accidental Overdoses"

def DATA_API_URL : String :=
  "https://data.wprdc.org/api/3/action/datastore_search?resource_id=1c59b26a-1684-4bfb-92f7-205b947530cf&limit=50000"

/-- The tidy pipeline (lines 77-162). The Except models the KeyError that
pandas melt raises when a requested id_vars column (in particular age,
which tidy only creates when the input schema has one) is absent. -/
def tidy (df0 : Df) : Except String (Df × List LongRow × DatasetMeta) :=
  let df := tidyDf df0
  let ods := odCols df
  if 0 < ods.length ∧
     ¬ ("year" ∈ df.cols ∧ "sex" ∈ df.cols ∧ "age" ∈ df.cols ∧ "zip_norm" ∈ df.cols)
  then Except.error "KeyError: melt id_vars absent from frame"
  else
    let melted := mkLong df ods
    let yb := yearBoundsOf (presentYears df)
    let dfF : Df := { cols := df.cols,
                      rows := df.rows.filter (fun r => yearInRange yb.1 yb.2 (r.get "year")) }
    let meltedF := melted.filter (fun lr => yearInRange yb.1 yb.2 lr.year)
    Except.ok (dfF, meltedF,
      { year_min := yb.1, year_max := yb.2,
        has_substances := decide (0 < ods.length),
        has_zip := dfF.rows.any (fun r => decide (r.get "zip_norm" ≠ Cell.na)),
        source := SOURCE_LABEL, api_url := DATA_API_URL })

/-! ## The module-level filter engine (lines 213-221) -/

/-- One user filter interaction: the year-range slider, the sex
multiselect, and the optional single zip (none encodes "ALL ZIPs"). -/
structure FilterSpec where
  lo : Int
  hi : Int
  sexes : List String
  zipSel : Option String

/-- Series.astype(str) on the zip_norm column, whose missing value is
pd.NA (line 103), which pandas renders as the string between angle
brackets spelled NA. -/
def zipAstype : Cell → String
  | Cell.na => "<NA>"
  | c => cellStr c

/-- Series.isin(sex_filter) on one cell: only a string cell equal to a
selected value passes. -/
def sexIsin (sexes : List String) (c : Cell) : Bool :=
  match c with
  | Cell.str s => sexes.contains s
  | _ => false

/-- The zip conjunct of the mask, applied only when a single zip is
selected: astype(str) equality against the selection. -/
def zipEqSel (zipSel : Option String) (c : Cell) : Bool :=
  match zipSel with
  | none => true
  | some z => zipAstype c == z

/-- The row mask: year between the slider bounds, sex isin the selected
set, and (when a single zip is selected) astype(str) equality on zip. -/
def maskRow (spec : FilterSpec) (r : DfRow) : Bool :=
  yearInRange spec.lo spec.hi (r.get "year")
  && sexIsin spec.sexes (r.get "sex")
  && zipEqSel spec.zipSel (r.get "zip_norm")

/-- The identical mask on the long table. -/
def maskLong (spec : FilterSpec) (lr : LongRow) : Bool :=
  yearInRange spec.lo spec.hi lr.year
  && sexIsin spec.sexes lr.sex
  && zipEqSel spec.zipSel lr.zip_norm

/-- dff = df[mask] (line 216). -/
def filteredWide (spec : FilterSpec) (w : Df) : List DfRow :=
  w.rows.filter (maskRow spec)

/-- meltedf = melted[melt_mask] (line 221). -/
def filteredLong (spec : FilterSpec) (l : List LongRow) : List LongRow :=
  l.filter (maskLong spec)

/-- The filter predicate in the language of the specification: the year is
present and inside the closed range, the sex is among the selected ones,
and either no zip is selected or the zip of the row equals it. -/
def specRowPred (spec : FilterSpec) (year sex zip : Cell) : Prop :=
  (∃ n, year = Cell.int n ∧ spec.lo ≤ n ∧ n ≤ spec.hi) ∧
  (∃ s, sex = Cell.str s ∧ s ∈ spec.sexes) ∧
  (spec.zipSel = none ∨ ∃ z, spec.zipSel = some z ∧ zip = Cell.str z)

/-! ## The drug-combination aggregator (lines 357-383) -/

/-- The second classifier (function clean_substance): same keyword
precedence after strip().upper(), but the catch-all title-cases the
string instead of collapsing to Other/Unknown. -/
def clean_substance (cell : Cell) : Option String :=
  match cell with
  | Cell.str s0 =>
      let s := pyUpper (pyStrip s0)
      if pyIn "FENTANYL" s then some "Fentanyl"
      else if pyIn "HEROIN" s then some "Heroin"
      else if pyIn "COCAINE" s then some "Cocaine"
      else if pyIn "ALCOHOL" s then some "Alcohol"
      else if pyIn "MORPHINE" s || pyIn "OXYCODONE" s || pyIn "HYDROCODONE" s
              || pyIn "OPIOID" s || pyIn "OPIATE" s then some "Other Opioids"
      else some (pyTitle s)
  | _ => none

/-- Python code-point lexicographic order on character lists. -/
def lexLe : List Char → List Char → Bool
  | [], _ => true
  | _ :: _, [] => false
  | a :: as, b :: bs =>
      if a.toNat < b.toNat then true
      else if b.toNat < a.toNat then false
      else lexLe as bs

/-- Insertion of a string into a sorted list under Python string order. -/
def insertSorted (x : String) : List String → List String
  | [] => [x]
  | y :: ys => if lexLe x.toList y.toList then x :: y :: ys else y :: insertSorted x ys

/-- Python sorted() on strings. -/
def sortStrs : List String → List String
  | [] => []
  | x :: xs => insertSorted x (sortStrs xs)

/-- sorted(set(filter(None, (clean_substance(row[c]) for c in od_cols)))):
clean labels with None and empty strings removed, deduplicated, sorted. -/
def comboLabels (ods : List String) (r : DfRow) : List String :=
  sortStrs ((ods.filterMap (fun c =>
    match clean_substance (r.get c) with
    | some s => if s = "" then none else some s
    | none => none)).eraseDups)

/-- The canonical combination key " + ".join(subs); a case with no
surviving label contributes no key. -/
def comboKey (ods : List String) (r : DfRow) : Option String :=
  match comboLabels ods r with
  | [] => none
  | s :: rest => some (String.intercalate " + " (s :: rest))

/-- combo_counts[combo]: how many filtered cases carry this key. -/
def comboCount (ods : List String) (rows : List DfRow) (k : String) : Nat :=
  (rows.filterMap (comboKey ods)).count k

/-! ## The loader and its fallback (lines 43-56 and 167-171) -/

/-- The single network retrieval (requests.get with timeout=60), abstracted
to its outcome: a parsed record frame, or any failure (timeout, bad
status, malformed payload). -/
inductive NetResult where
  | ok (records : Df)
  | failed

/-- load_from_api: one attempt, then the local CSV snapshot, then the
exception is re-raised (DataUnavailable). -/
def load_from_api (net : NetResult) (localCsv : Option Df) : Except String Df :=
  match net with
  | NetResult.ok d => Except.ok d
  | NetResult.failed =>
      match localCsv with
      | some d => Except.ok d
      | none => Except.error "DataUnavailable"

/-- The top of the render cycle: a loader error is surfaced (st.error) and
the script halts (st.stop, modelled none) before any chart; otherwise the
full raw frame flows into tidy. -/
def renderCycle (net : NetResult) (localCsv : Option Df) :
    Option (Except String (Df × List LongRow × DatasetMeta)) :=
  match load_from_api net localCsv with
  | Except.error _ => none
  | Except.ok raw => some (tidy raw)

/-! ## Named projections of the tidy result (the let-bound values of tidy),
used to state what a successful tidy returns. -/

/-- The year bounds tidy computes for a batch. -/
def tidyYB (df0 : Df) : Int × Int := yearBoundsOf (presentYears (tidyDf df0))

/-- The wide table a successful tidy returns. -/
def tidyWide (df0 : Df) : Df :=
  { cols := (tidyDf df0).cols,
    rows := (tidyDf df0).rows.filter (fun r =>
      yearInRange (tidyYB df0).1 (tidyYB df0).2 (r.get "year")) }

/-- The long table a successful tidy returns. -/
def tidyLong (df0 : Df) : List LongRow :=
  (mkLong (tidyDf df0) (odCols (tidyDf df0))).filter (fun lr =>
    yearInRange (tidyYB df0).1 (tidyYB df0).2 lr.year)

/-- The metadata a successful tidy returns. -/
def tidyMeta (df0 : Df) : DatasetMeta :=
  { year_min := (tidyYB df0).1, year_max := (tidyYB df0).2,
    has_substances := decide (0 < (odCols (tidyDf df0)).length),
    has_zip := (tidyWide df0).rows.any (fun r => decide (r.get "zip_norm" ≠ Cell.na)),
    source := SOURCE_LABEL, api_url := DATA_API_URL }

/-! ## Concrete record batches used as failing inputs and witnesses -/

/-- A record whose zip field holds no run of five digits. -/
def dfZipBug : Df :=
  ⟨["case_year", "incident_zip"],
   [[("case_year", Cell.str "2020"), ("incident_zip", Cell.str "ABC")]]⟩

/-- The zip_norm column of the wide table, or [] on a tidy error. -/
def wideZips (df0 : Df) : List Cell :=
  match tidy df0 with
  | Except.ok (w, _, _) => w.rows.map (fun r => r.get "zip_norm")
  | Except.error _ => []

/-- The end-to-end scenario record of the specification, placed in a batch
that also carries an age column so that melt finds its id_vars. -/
def dfScenario : Df :=
  ⟨["case_year", "sex", "age", "incident_zip", "combined_od1", "combined_od2"],
   [[("case_year", Cell.str "2020"), ("sex", Cell.str "M"), ("age", Cell.str "34"),
     ("incident_zip", Cell.str "15213-1234"),
     ("combined_od1", Cell.str "FENTANYL-HCL"), ("combined_od2", Cell.str "")]]⟩

/-- The end-to-end scenario record exactly as the specification writes it:
its schema has no age column. -/
def dfScenarioNoAge : Df :=
  ⟨["case_year", "sex", "incident_zip", "combined_od1", "combined_od2"],
   [[("case_year", Cell.str "2020"), ("sex", Cell.str "M"),
     ("incident_zip", Cell.str "15213-1234"),
     ("combined_od1", Cell.str "FENTANYL-HCL"), ("combined_od2", Cell.str "")]]⟩

/-- The substance column of the long table, or [] on a tidy error. -/
def longSubs (df0 : Df) : List String :=
  match tidy df0 with
  | Except.ok (_, l, _) => l.map (fun lr => lr.substance)
  | Except.error _ => []

/-- The (year, sex, zip_norm) triples of the wide table. -/
def wideView (df0 : Df) : List (Cell × Cell × Cell) :=
  match tidy df0 with
  | Except.ok (w, _, _) => w.rows.map (fun r => (r.get "year", r.get "sex", r.get "zip_norm"))
  | Except.error _ => []

/-- An empty batch: no columns, no records. -/
def dfEmpty : Df := ⟨[], []⟩

/-- What tidy makes of the empty batch. -/
def wideEmpty : Df := ⟨["year", "sex", "zip_norm"], []⟩

/-- The metadata tidy computes for the empty batch. -/
def metaEmpty : DatasetMeta :=
  { year_min := 2008, year_max := 2025, has_substances := false, has_zip := false,
    source := SOURCE_LABEL, api_url := DATA_API_URL }

/-- A one-record batch with a year only. -/
def dfOneYear : Df := ⟨["case_year"], [[("case_year", Cell.str "2020")]]⟩

/-- A trivial filter interaction. -/
def specAll : FilterSpec := ⟨2008, 2025, [], none⟩

/-- A one-case toxicology row classifying to Fentanyl and Cocaine. -/
def rowFentCoc : DfRow :=
  [("combined_od1", Cell.str "FENTANYL-HCL"), ("combined_od2", Cell.str "COCAINE")]

/-! ## Helper lemmas: rows, columns and the stages of tidy -/

@[simp] theorem DfRow.get_set_same (r : DfRow) (c : String) (v : Cell) :
    (r.set c v).get c = v := by
  induction r with
  | nil => simp [DfRow.set, DfRow.get]
  | cons p rest ih =>
      obtain ⟨c', v'⟩ := p
      by_cases h : c' = c
      · simp [DfRow.set, h, DfRow.get]
      · simp [DfRow.set, h, DfRow.get, ih]

theorem DfRow.get_set_ne (r : DfRow) {c c' : String} (v : Cell) (h : c ≠ c') :
    (r.set c v).get c' = r.get c' := by
  induction r with
  | nil => simp [DfRow.set, DfRow.get, h]
  | cons p rest ih =>
      obtain ⟨c'', v'⟩ := p
      by_cases h2 : c'' = c
      · subst h2
        simp [DfRow.set, DfRow.get, h]
      · simp [DfRow.set, h2, DfRow.get, ih]

@[simp] theorem Df.rows_setColF (df : Df) (c : String) (f : DfRow → Cell) :
    (df.setColF c f).rows = df.rows.map (fun r => r.set c (f r)) := rfl

theorem Df.mem_cols_setColF (df : Df) (c c' : String) (f : DfRow → Cell) :
    c' ∈ (df.setColF c f).cols ↔ c' ∈ df.cols ∨ c' = c := by
  by_cases h : c ∈ df.cols
  · simp only [Df.setColF, if_pos h]
    exact ⟨Or.inl, fun hc => hc.elim id (fun e => e ▸ h)⟩
  · simp [Df.setColF, if_neg h]

theorem mem_cols_yearStage (df : Df) (c : String) :
    c ∈ (yearStage df).cols ↔ c ∈ df.cols ∨ c = "year" := by
  unfold yearStage
  split
  · exact df.mem_cols_setColF _ c _
  · split
    · exact df.mem_cols_setColF _ c _
    · exact df.mem_cols_setColF _ c _

theorem mem_cols_sexStage (df : Df) (c : String) :
    c ∈ (sexStage df).cols ↔ c ∈ df.cols ∨ c = "sex" := by
  unfold sexStage
  split
  · exact df.mem_cols_setColF _ c _
  · exact df.mem_cols_setColF _ c _

theorem mem_cols_ageStage (df : Df) (c : String) :
    c ∈ (ageStage df).cols ↔ c ∈ df.cols := by
  unfold ageStage
  split
  · rename_i h
    rw [df.mem_cols_setColF _ c _]
    exact ⟨fun hc => hc.elim id (fun e => e ▸ h), Or.inl⟩
  · exact Iff.rfl

theorem mem_cols_zipStage (df : Df) (c : String) :
    c ∈ (zipStage df).cols ↔ c ∈ df.cols ∨ c = "zip_norm" := by
  unfold zipStage
  split
  · exact df.mem_cols_setColF _ c _
  · exact df.mem_cols_setColF _ c _

theorem mem_tidyDf_cols (df0 : Df) (c : String) :
    c ∈ (tidyDf df0).cols ↔ c ∈ df0.cols ∨ c = "year" ∨ c = "sex" ∨ c = "zip_norm" := by
  unfold tidyDf
  rw [mem_cols_zipStage, mem_cols_ageStage, mem_cols_sexStage, mem_cols_yearStage]
  tauto

theorem get_year_sexStage {df : Df} {r' : DfRow} (h : r' ∈ (sexStage df).rows) :
    ∃ r ∈ df.rows, r'.get "year" = r.get "year" := by
  unfold sexStage at h
  split at h <;>
  · rw [Df.rows_setColF, List.mem_map] at h
    obtain ⟨r, hr, rfl⟩ := h
    exact ⟨r, hr, DfRow.get_set_ne r _ (by decide)⟩

theorem get_year_ageStage {df : Df} {r' : DfRow} (h : r' ∈ (ageStage df).rows) :
    ∃ r ∈ df.rows, r'.get "year" = r.get "year" := by
  unfold ageStage at h
  split at h
  · rw [Df.rows_setColF, List.mem_map] at h
    obtain ⟨r, hr, rfl⟩ := h
    exact ⟨r, hr, DfRow.get_set_ne r _ (by decide)⟩
  · exact ⟨r', h, rfl⟩

theorem get_year_zipStage {df : Df} {r' : DfRow} (h : r' ∈ (zipStage df).rows) :
    ∃ r ∈ df.rows, r'.get "year" = r.get "year" := by
  unfold zipStage at h
  split at h <;>
  · rw [Df.rows_setColF, List.mem_map] at h
    obtain ⟨r, hr, rfl⟩ := h
    refine ⟨r, hr, DfRow.get_set_ne r _ ?_⟩
    decide

theorem get_year_yearStage_absent {df : Df} {r' : DfRow}
    (hc : "case_year" ∉ df.cols) (hd : "death_year" ∉ df.cols)
    (h : r' ∈ (yearStage df).rows) : r'.get "year" = Cell.na := by
  unfold yearStage at h
  rw [if_neg hc, if_neg hd, Df.rows_setColF, List.mem_map] at h
  obtain ⟨r, _, rfl⟩ := h
  exact DfRow.get_set_same r _ _

theorem tidyDf_year_absent {df0 : Df}
    (hc : "case_year" ∉ df0.cols) (hd : "death_year" ∉ df0.cols) :
    ∀ r' ∈ (tidyDf df0).rows, r'.get "year" = Cell.na := by
  intro r' h
  obtain ⟨r2, h2, e2⟩ := get_year_zipStage h
  obtain ⟨r3, h3, e3⟩ := get_year_ageStage h2
  obtain ⟨r4, h4, e4⟩ := get_year_sexStage h3
  rw [e2, e3, e4]
  exact get_year_yearStage_absent hc hd h4

theorem zipNormCell_isStr (v : Cell) : ∃ s, zipNormCell v = Cell.str s := ⟨_, rfl⟩

theorem tidyDf_zip_shape {df0 : Df} :
    ∀ r' ∈ (tidyDf df0).rows,
      r'.get "zip_norm" = Cell.na ∨ ∃ s, r'.get "zip_norm" = Cell.str s := by
  intro r' h
  unfold tidyDf zipStage at h
  split at h
  · rw [Df.rows_setColF, List.mem_map] at h
    obtain ⟨r, _, rfl⟩ := h
    exact Or.inl (DfRow.get_set_same r _ _)
  · rw [Df.rows_setColF, List.mem_map] at h
    obtain ⟨r, _, rfl⟩ := h
    exact Or.inr (by rw [DfRow.get_set_same]; exact zipNormCell_isStr _)

theorem mkLong_mem {df : Df} {ods : List String} {lr : LongRow}
    (h : lr ∈ mkLong df ods) :
    ∃ r ∈ df.rows, lr.year = r.get "year" ∧ lr.sex = r.get "sex" ∧
      lr.zip_norm = r.get "zip_norm" := by
  unfold mkLong at h
  rw [List.mem_filterMap] at h
  obtain ⟨p, hp, he⟩ := h
  rw [List.mem_flatMap] at hp
  obtain ⟨c, _, hpr⟩ := hp
  rw [List.mem_map] at hpr
  obtain ⟨r, hr, rfl⟩ := hpr
  revert he
  cases hcl : classify (r.get c) with
  | none => intro he; simp at he
  | some sub =>
      intro he
      simp only [Option.some.injEq] at he
      subst he
      exact ⟨r, hr, rfl, rfl, rfl⟩

theorem tidy_ok_inv {df0 : Df} {w : Df} {l : List LongRow} {m : DatasetMeta}
    (h : tidy df0 = Except.ok (w, l, m)) :
    w = tidyWide df0 ∧ l = tidyLong df0 ∧ m = tidyMeta df0 := by
  unfold tidy at h
  dsimp only at h
  split at h
  · exact absurd h (by simp)
  · simp only [Except.ok.injEq, Prod.mk.injEq] at h
    obtain ⟨h1, h2, h3⟩ := h
    exact ⟨h1.symm, h2.symm, h3.symm⟩

@[simp] theorem rows_tidyWide (df0 : Df) :
    (tidyWide df0).rows = (tidyDf df0).rows.filter (fun r =>
      yearInRange (tidyYB df0).1 (tidyYB df0).2 (r.get "year")) := rfl

@[simp] theorem year_min_tidyMeta (df0 : Df) : (tidyMeta df0).year_min = (tidyYB df0).1 := rfl

@[simp] theorem year_max_tidyMeta (df0 : Df) : (tidyMeta df0).year_max = (tidyYB df0).2 := rfl

theorem has_substances_tidyMeta (df0 : Df) :
    (tidyMeta df0).has_substances = decide (0 < (odCols (tidyDf df0)).length) := rfl

theorem has_zip_tidyMeta (df0 : Df) :
    (tidyMeta df0).has_zip =
      (tidyWide df0).rows.any (fun r => decide (r.get "zip_norm" ≠ Cell.na)) := rfl

theorem yearInRange_true_iff {lo hi : Int} {c : Cell} :
    yearInRange lo hi c = true ↔ ∃ n, c = Cell.int n ∧ lo ≤ n ∧ n ≤ hi := by
  cases c <;> simp [yearInRange]

/-- A whitespace-free nonempty pattern that occurs in the image of a list
still occurs after the list drops a whitespace-satisfying head run. -/
theorem infix_map_dropWhile {t u : List Char} {p : Char → Bool} {f : Char → Char}
    (hne : t ≠ []) (hfp : ∀ c, p c = true → f c ∉ t) (h : t <:+: u.map f) :
    t <:+: (u.dropWhile p).map f := by
  induction u with
  | nil => simpa using h
  | cons a u' ih =>
      by_cases hp : p a = true
      · rw [List.dropWhile_cons, if_pos hp]
        apply ih
        simp only [List.map_cons] at h
        rcases List.infix_cons_iff.mp h with hpre | hinf
        · exfalso
          obtain ⟨c, t', rfl⟩ : ∃ c t', t = c :: t' := by
            cases t with
            | nil => exact absurd rfl hne
            | cons c t' => exact ⟨c, t', rfl⟩
          obtain ⟨rr, hr⟩ := hpre
          rw [List.cons_append] at hr
          injection hr with h1 _
          exact hfp a hp (by rw [← h1]; exact List.mem_cons_self c t')
        · exact hinf
      · rw [List.dropWhile_cons, if_neg hp]
        simpa using h

/-- The same, through both ends of a strip. -/
theorem infix_map_stripChars {t u : List Char} {f : Char → Char}
    (hne : t ≠ []) (hws : ∀ c, Char.isWhitespace c = true → f c ∉ t)
    (h : t <:+: u.map f) : t <:+: (stripChars u).map f := by
  unfold stripChars
  have h1 : t <:+: (u.dropWhile Char.isWhitespace).map f :=
    infix_map_dropWhile hne hws h
  have h2 : t.reverse <:+: ((u.dropWhile Char.isWhitespace).reverse).map f := by
    rw [List.map_reverse]
    exact List.reverse_infix.mpr h1
  have hne' : t.reverse ≠ [] := by simpa using hne
  have hws' : ∀ c, Char.isWhitespace c = true → f c ∉ t.reverse := by
    intro c hc
    simpa using hws c hc
  have h3 := infix_map_dropWhile hne' hws' h2
  rw [List.map_reverse]
  have h4 := List.reverse_infix.mpr h3
  simpa using h4

theorem toUpper_ws_not_in_fentanyl :
    ∀ c, Char.isWhitespace c = true → Char.toUpper c ∉ "FENTANYL".toList := by
  intro c hc
  simp only [Char.isWhitespace, Bool.or_eq_true, decide_eq_true_eq] at hc
  rcases hc with ((h | h) | h) | h <;> (subst h; decide)

theorem tidy_ok_of_guard {df0 : Df}
    (hg : ¬ (0 < (odCols (tidyDf df0)).length ∧
      ¬ ("year" ∈ (tidyDf df0).cols ∧ "sex" ∈ (tidyDf df0).cols ∧
         "age" ∈ (tidyDf df0).cols ∧ "zip_norm" ∈ (tidyDf df0).cols))) :
    tidy df0 = Except.ok (tidyWide df0, tidyLong df0, tidyMeta df0) := by
  unfold tidy
  rw [if_neg hg]
  rfl

theorem mask_sex_iff {sexes : List String} {c : Cell} :
    sexIsin sexes c = true ↔ ∃ s, c = Cell.str s ∧ s ∈ sexes := by
  cases c <;> simp [sexIsin]

theorem mask_zip_iff {zipSel : Option String} {c : Cell}
    (hz : ∀ z, zipSel = some z → z ≠ "<NA>")
    (hshape : c = Cell.na ∨ ∃ s, c = Cell.str s) :
    zipEqSel zipSel c = true ↔
      (zipSel = none ∨ ∃ z, zipSel = some z ∧ c = Cell.str z) := by
  cases zipSel with
  | none => simp [zipEqSel]
  | some z =>
      have hzz := hz z rfl
      rcases hshape with rfl | ⟨s, rfl⟩
      · constructor
        · intro hb
          have hb2 : zipAstype Cell.na = z := beq_iff_eq.mp (by simpa [zipEqSel] using hb)
          exact absurd hb2.symm hzz
        · rintro (hn | ⟨z', hz', he⟩)
          · exact absurd hn (by simp)
          · exact absurd he (by simp)
      · simp only [zipEqSel, zipAstype, cellStr, beq_iff_eq, Option.some.injEq,
          Cell.str.injEq]
        constructor
        · intro he
          exact Or.inr ⟨z, rfl, he⟩
        · rintro (hn | ⟨z', rfl, rfl⟩)
          · exact absurd hn (by simp)
          · rfl

theorem maskRow_true_iff {spec : FilterSpec} {r : DfRow}
    (hz : ∀ z, spec.zipSel = some z → z ≠ "<NA>")
    (hshape : r.get "zip_norm" = Cell.na ∨ ∃ s, r.get "zip_norm" = Cell.str s) :
    maskRow spec r = true ↔
      specRowPred spec (r.get "year") (r.get "sex") (r.get "zip_norm") := by
  unfold maskRow specRowPred
  rw [Bool.and_eq_true, Bool.and_eq_true]
  rw [yearInRange_true_iff, mask_sex_iff, mask_zip_iff hz hshape]
  exact and_assoc

theorem maskLong_true_iff {spec : FilterSpec} {lr : LongRow}
    (hz : ∀ z, spec.zipSel = some z → z ≠ "<NA>")
    (hshape : lr.zip_norm = Cell.na ∨ ∃ s, lr.zip_norm = Cell.str s) :
    maskLong spec lr = true ↔ specRowPred spec lr.year lr.sex lr.zip_norm := by
  unfold maskLong specRowPred
  rw [Bool.and_eq_true, Bool.and_eq_true]
  rw [yearInRange_true_iff, mask_sex_iff, mask_zip_iff hz hshape]
  exact and_assoc

/-! ## The claims -/

/-- Claim C1. The zip resolution does pick the first present candidate
column and the first five-digit run — but when the field holds no run of
five consecutive digits, the normalized zip is NOT absent: the NaN of the
failed extract is stringified to "nan" and zero-padded to "00nan". Code
bug exhibited at the failing record {case_year: "2020", incident_zip:
"ABC"}: the wide table carries the padded non-digit string "00nan". -/
theorem claim1_zip_padded_nan_bug : wideZips dfZipBug = [Cell.str "00nan"] := by
  rfl

/-- Claim C2, counterexample. On the scenario record (supplemented with an
age column so that melt finds its id_vars), tidy emits TWO substance rows
— the empty string in combined_od2 is a str and classifies to
Other/Unknown, so a row IS emitted for it. Moreover, on the scenario batch
exactly as the specification writes it (no age column), tidy does not even
succeed: melt raises a KeyError for the missing id_vars column age. -/
theorem claim2_counterexample :
    longSubs dfScenario = ["Fentanyl", "Other/Unknown"] ∧
    (tidy dfScenarioNoAge).isOk = false := by
  constructor <;> rfl

/-- Claim C2, amended. For every record and substance column, tidy emits
exactly one SubstanceMention row when the cell is a string — the empty
string included, which classifies to Other/Unknown — and emits no row when
the cell is not a string; the scenario record (in a batch that also has an
age column) yields the NormalizedCase {year 2020, sex Male, zip "15213"}
and exactly two SubstanceMention rows, Fentanyl and Other/Unknown. -/
theorem claim2_amended_substance_rows :
    wideView dfScenario = [(Cell.int 2020, Cell.str "Male", Cell.str "15213")] ∧
    longSubs dfScenario = ["Fentanyl", "Other/Unknown"] ∧
    classify (Cell.str "") = some "Other/Unknown" ∧
    (∀ s : String, (classify (Cell.str s)).isSome = true) ∧
    classify Cell.na = none ∧
    (∀ n : Int, classify (Cell.int n) = none) := by
  refine ⟨rfl, rfl, rfl, ?_, rfl, fun _ => rfl⟩
  intro s
  simp only [classify]
  repeat' split
  all_goals rfl

/-- Claim C7. The loader performs its single retrieval; on success it
returns the parsed frame, on any failure it returns the local snapshot,
and when the snapshot is also absent it raises a DataUnavailable error
that the caller surfaces and turns into a halt of the render cycle, so no
chart is computed; a successful load flows whole into tidy. -/
theorem claim7_loader_fallback (d : Df) (loc : Option Df) :
    load_from_api (NetResult.ok d) loc = Except.ok d ∧
    load_from_api NetResult.failed (some d) = Except.ok d ∧
    load_from_api NetResult.failed none = Except.error "DataUnavailable" ∧
    renderCycle NetResult.failed none = none ∧
    renderCycle (NetResult.ok d) loc = some (tidy d) := by
  exact ⟨rfl, rfl, rfl, rfl, rfl⟩

/-- Claim C8. Both classifiers are first-match-wins with fentanyl ahead of
heroin, matching case-insensitively: any string whose uppercasing contains
FENTANYL — in particular any string containing both fentanyl and heroin in
any letter case — classifies to Fentanyl under classify and under
clean_substance (whose strip cannot remove an occurrence of a
whitespace-free keyword). -/
theorem claim8_fentanyl_precedence (s : String)
    (hf : pyIn "FENTANYL" (pyUpper s) = true)
    (hh : pyIn "HEROIN" (pyUpper s) = true) :
    classify (Cell.str s) = some "Fentanyl" ∧
    clean_substance (Cell.str s) = some "Fentanyl" := by
  refine ⟨?_, ?_⟩
  · simp only [classify]
    rw [hf]
    rfl
  · have h' : "FENTANYL".toList <:+: s.toList.map Char.toUpper :=
      of_decide_eq_true hf
    have h2 := infix_map_stripChars (by decide) toUpper_ws_not_in_fentanyl h'
    have hstrip : pyIn "FENTANYL" (pyUpper (pyStrip s)) = true := decide_eq_true h2
    simp only [clean_substance]
    rw [hstrip]
    rfl

/-- Claim C8 witness: the concrete string "fentanyl heroin". -/
theorem claim8_witness :
    classify (Cell.str "fentanyl heroin") = some "Fentanyl" ∧
    clean_substance (Cell.str "fentanyl heroin") = some "Fentanyl" :=
  claim8_fentanyl_precedence "fentanyl heroin" (by decide) (by decide)

/-- Claim C10, counterexample. On a batch with no age column, tidy does
not add or overwrite an age column on the frame of the caller (it does
add year): the claim that all four of year, sex, age, zip_norm are
written is false. -/
theorem claim10_counterexample :
    "age" ∉ (tidyDf dfOneYear).cols ∧ "year" ∈ (tidyDf dfOneYear).cols := by
  decide

/-- Claim C10, amended. tidy mutates the raw batch in place: the state of
the argument object after the call always carries the columns year, sex
and zip_norm (added or overwritten), carries age exactly when the input
already had an age column (then overwritten in place), and the object of
the caller does not remain unchanged whenever it lacked the zip_norm
column. -/
theorem claim10_amended_mutation (df0 : Df) :
    "year" ∈ (tidyDf df0).cols ∧ "sex" ∈ (tidyDf df0).cols ∧
    "zip_norm" ∈ (tidyDf df0).cols ∧
    ("age" ∈ (tidyDf df0).cols ↔ "age" ∈ df0.cols) ∧
    ("zip_norm" ∉ df0.cols → tidyDf df0 ≠ df0) := by
  refine ⟨?_, ?_, ?_, ?_, ?_⟩
  · rw [mem_tidyDf_cols]; tauto
  · rw [mem_tidyDf_cols]; tauto
  · rw [mem_tidyDf_cols]; tauto
  · rw [mem_tidyDf_cols]; simp
  · intro hz heq
    have hmem : "zip_norm" ∈ (tidyDf df0).cols := by rw [mem_tidyDf_cols]; tauto
    rw [heq] at hmem
    exact hz hmem

/-- Claim C10 amended witness: on the empty batch the frame changes. -/
theorem claim10_witness : tidyDf dfEmpty ≠ dfEmpty :=
  (claim10_amended_mutation dfEmpty).2.2.2.2 (by decide)

/-- Claim C3. When at least one record has a present year the bounds are
year_min = max(min observed, 2008) and year_max = max observed; with no
present year they default to [2008, 2025]; and every row of the returned
wide and long tables has a present year inside the closed range. -/
theorem claim3_year_bounds (df0 : Df) (w : Df) (l : List LongRow)
    (m : DatasetMeta) (h : tidy df0 = Except.ok (w, l, m)) :
    (∀ a b, (presentYears (tidyDf df0)).min? = some a →
       (presentYears (tidyDf df0)).max? = some b →
       m.year_min = max a 2008 ∧ m.year_max = b) ∧
    (presentYears (tidyDf df0) = [] → m.year_min = 2008 ∧ m.year_max = 2025) ∧
    (∀ r ∈ w.rows, ∃ n, r.get "year" = Cell.int n ∧
       m.year_min ≤ n ∧ n ≤ m.year_max) ∧
    (∀ lr ∈ l, ∃ n, lr.year = Cell.int n ∧
       m.year_min ≤ n ∧ n ≤ m.year_max) ∧
    w.rows = (tidyDf df0).rows.filter (fun r =>
       yearInRange m.year_min m.year_max (r.get "year")) ∧
    l = (mkLong (tidyDf df0) (odCols (tidyDf df0))).filter (fun lr =>
       yearInRange m.year_min m.year_max lr.year) := by
  obtain ⟨hw, hl, hm⟩ := tidy_ok_inv h
  subst hw hl hm
  refine ⟨?_, ?_, ?_, ?_, rfl, rfl⟩
  · intro a b ha hb
    simp [year_min_tidyMeta, year_max_tidyMeta, tidyYB, yearBoundsOf, ha, hb]
  · intro h0
    simp [year_min_tidyMeta, year_max_tidyMeta, tidyYB, yearBoundsOf, h0]
  · intro r hr
    rw [rows_tidyWide] at hr
    have hp := List.of_mem_filter hr
    rw [yearInRange_true_iff] at hp
    obtain ⟨n, hn, h1, h2⟩ := hp
    exact ⟨n, hn, by simpa using h1, by simpa using h2⟩
  · intro lr hlr
    unfold tidyLong at hlr
    have hp := List.of_mem_filter hlr
    rw [yearInRange_true_iff] at hp
    obtain ⟨n, hn, h1, h2⟩ := hp
    exact ⟨n, hn, by simpa using h1, by simpa using h2⟩

/-- Claim C3 witness: a batch with the single year 2020. -/
theorem claim3_witness :
    (tidyMeta dfOneYear).year_min = max 2020 2008 ∧
    (tidyMeta dfOneYear).year_max = 2020 :=
  (claim3_year_bounds dfOneYear (tidyWide dfOneYear) (tidyLong dfOneYear)
    (tidyMeta dfOneYear) (tidy_ok_of_guard (by decide))).1 2020 2020 rfl rfl

/-- Claim C4. has_substances is true exactly when some column of the
source schema matches the combined_od prefix pattern, and has_zip is true
exactly when some row of the returned (year-filtered) wide table carries a
present (pandas notna) zip_norm value. -/
theorem claim4_meta_flags (df0 : Df) (w : Df) (l : List LongRow)
    (m : DatasetMeta) (h : tidy df0 = Except.ok (w, l, m)) :
    (m.has_substances = true ↔ ∃ c ∈ df0.cols, odColPat c = true) ∧
    (m.has_zip = true ↔ ∃ r ∈ w.rows, r.get "zip_norm" ≠ Cell.na) := by
  obtain ⟨hw, hl, hm⟩ := tidy_ok_inv h
  subst hw hl hm
  constructor
  · rw [has_substances_tidyMeta, decide_eq_true_eq, List.length_pos]
    constructor
    · intro hne
      obtain ⟨c, hc⟩ := List.exists_mem_of_ne_nil _ hne
      have hc2 := List.mem_filter.mp hc
      obtain ⟨hmem, hpat⟩ := hc2
      rw [mem_tidyDf_cols] at hmem
      rcases hmem with hmem | rfl | rfl | rfl
      · exact ⟨c, hmem, hpat⟩
      · exact absurd hpat (by decide)
      · exact absurd hpat (by decide)
      · exact absurd hpat (by decide)
    · rintro ⟨c, hc, hpat⟩
      have : c ∈ odCols (tidyDf df0) :=
        List.mem_filter.mpr ⟨(mem_tidyDf_cols df0 c).mpr (Or.inl hc), hpat⟩
      exact List.ne_nil_of_mem this
  · rw [has_zip_tidyMeta, List.any_eq_true]
    simp only [decide_eq_true_eq]

/-- Claim C4 witness: the empty batch. -/
theorem claim4_witness :
    ((tidyMeta dfEmpty).has_substances = true ↔
      ∃ c ∈ dfEmpty.cols, odColPat c = true) ∧
    ((tidyMeta dfEmpty).has_zip = true ↔
      ∃ r ∈ (tidyWide dfEmpty).rows, r.get "zip_norm" ≠ Cell.na) :=
  claim4_meta_flags dfEmpty (tidyWide dfEmpty) (tidyLong dfEmpty)
    (tidyMeta dfEmpty) (tidy_ok_of_guard (by decide))

/-- Claim C9. Every row of both returned tables has a present year — the
year-bounds filter in particular removes absent-year rows — and a batch
whose schema has neither case_year nor death_year yields an empty wide
table. -/
theorem claim9_rows_have_year (df0 : Df) (w : Df) (l : List LongRow)
    (m : DatasetMeta) (h : tidy df0 = Except.ok (w, l, m)) :
    (∀ r ∈ w.rows, ∃ n, r.get "year" = Cell.int n) ∧
    (∀ lr ∈ l, ∃ n, lr.year = Cell.int n) ∧
    ("case_year" ∉ df0.cols → "death_year" ∉ df0.cols → w.rows = []) := by
  obtain ⟨hw, hl, hm⟩ := tidy_ok_inv h
  subst hw hl hm
  refine ⟨?_, ?_, ?_⟩
  · intro r hr
    rw [rows_tidyWide] at hr
    have hp := List.of_mem_filter hr
    rw [yearInRange_true_iff] at hp
    obtain ⟨n, hn, -⟩ := hp
    exact ⟨n, hn⟩
  · intro lr hlr
    unfold tidyLong at hlr
    have hp := List.of_mem_filter hlr
    rw [yearInRange_true_iff] at hp
    obtain ⟨n, hn, -⟩ := hp
    exact ⟨n, hn⟩
  · intro hc hd
    rw [rows_tidyWide, List.filter_eq_nil_iff]
    intro r hr
    rw [tidyDf_year_absent hc hd r hr]
    simp [yearInRange]

/-- Claim C9 witness: the empty batch has no year column and an empty
wide table. -/
theorem claim9_witness : (tidyWide dfEmpty).rows = [] :=
  (claim9_rows_have_year dfEmpty (tidyWide dfEmpty) (tidyLong dfEmpty)
    (tidyMeta dfEmpty) (tidy_ok_of_guard (by decide))).2.2
    (by decide) (by decide)

/-- Claim C5. A row of the wide (resp. long) table survives the
module-level mask exactly when its year is present and inside the slider
range, its sex is among the selected ones, and either no single zip is
selected or its zip_norm is the selected string; a row with an absent
year never passes the mask. The selected zip is assumed distinct from the
pandas rendering of pd.NA, which no real selection can be since the
selectable options are the non-null zip_norm values. -/
theorem claim5_filter_engine (df0 : Df) (w : Df) (l : List LongRow)
    (m : DatasetMeta) (spec : FilterSpec)
    (h : tidy df0 = Except.ok (w, l, m))
    (hz : ∀ z, spec.zipSel = some z → z ≠ "<NA>") :
    (∀ r ∈ w.rows, (r ∈ filteredWide spec w ↔
       specRowPred spec (r.get "year") (r.get "sex") (r.get "zip_norm"))) ∧
    (∀ lr ∈ l, (lr ∈ filteredLong spec l ↔
       specRowPred spec lr.year lr.sex lr.zip_norm)) ∧
    (∀ r : DfRow, r.get "year" = Cell.na → maskRow spec r = false) := by
  obtain ⟨hw, hl, hm⟩ := tidy_ok_inv h
  refine ⟨?_, ?_, ?_⟩
  · intro r hr
    have hshape : r.get "zip_norm" = Cell.na ∨ ∃ s, r.get "zip_norm" = Cell.str s := by
      subst hw
      rw [rows_tidyWide] at hr
      exact tidyDf_zip_shape r (List.mem_filter.mp hr).1
    unfold filteredWide
    rw [List.mem_filter]
    rw [maskRow_true_iff hz hshape]
    exact ⟨fun hp => hp.2, fun hp => ⟨hr, hp⟩⟩
  · intro lr hlr
    have hshape : lr.zip_norm = Cell.na ∨ ∃ s, lr.zip_norm = Cell.str s := by
      subst hl
      unfold tidyLong at hlr
      have hmem := (List.mem_filter.mp hlr).1
      obtain ⟨r, hr, -, -, hzp⟩ := mkLong_mem hmem
      rw [hzp]
      exact tidyDf_zip_shape r hr
    unfold filteredLong
    rw [List.mem_filter]
    rw [maskLong_true_iff hz hshape]
    exact ⟨fun hp => hp.2, fun hp => ⟨hlr, hp⟩⟩
  · intro r hy
    unfold maskRow
    rw [hy]
    simp [yearInRange]

/-- Claim C5 witness: the empty row fails the mask of the trivial
interaction because its year is absent. -/
theorem claim5_witness : maskRow specAll [] = false :=
  (claim5_filter_engine dfEmpty (tidyWide dfEmpty) (tidyLong dfEmpty)
    (tidyMeta dfEmpty) specAll (tidy_ok_of_guard (by decide))
    (fun z hz => by cases hz)).2.2 [] rfl

/-- Claim C6. The combination aggregator re-classifies with
clean_substance, whose catch-all title-cases an unrecognized string
rather than collapsing it to Other/Unknown; a case key exists exactly
when the deduplicated sorted label list is nonempty and is then its
" + "-join; and two cases whose label set is {Cocaine, Fentanyl} produce
the single key "Cocaine + Fentanyl" with count 2. -/
theorem claim6_combo_aggregator :
    (∀ s : String,
       clean_substance (Cell.str s) = some "Fentanyl" ∨
       clean_substance (Cell.str s) = some "Heroin" ∨
       clean_substance (Cell.str s) = some "Cocaine" ∨
       clean_substance (Cell.str s) = some "Alcohol" ∨
       clean_substance (Cell.str s) = some "Other Opioids" ∨
       clean_substance (Cell.str s) = some (pyTitle (pyUpper (pyStrip s)))) ∧
    (∀ (ods : List String) (r : DfRow),
       comboKey ods r = none ↔ comboLabels ods r = []) ∧
    (∀ (ods : List String) (r : DfRow), comboLabels ods r ≠ [] →
       comboKey ods r = some (String.intercalate " + " (comboLabels ods r))) ∧
    (∀ (ods : List String) (r1 r2 : DfRow),
       comboLabels ods r1 = ["Cocaine", "Fentanyl"] →
       comboLabels ods r2 = ["Cocaine", "Fentanyl"] →
       comboCount ods [r1, r2] "Cocaine + Fentanyl" = 2 ∧
       ∀ k, k ≠ "Cocaine + Fentanyl" → comboCount ods [r1, r2] k = 0) := by
  refine ⟨?_, ?_, ?_, ?_⟩
  · intro s
    simp only [clean_substance]
    repeat' split
    all_goals simp
  · intro ods r
    unfold comboKey
    cases h : comboLabels ods r <;> simp
  · intro ods r h
    unfold comboKey
    cases hc : comboLabels ods r with
    | nil => exact absurd hc h
    | cons s rest => rfl
  · intro ods r1 r2 h1 h2
    have k1 : comboKey ods r1 = some "Cocaine + Fentanyl" := by
      unfold comboKey
      rw [h1]
      decide
    have k2 : comboKey ods r2 = some "Cocaine + Fentanyl" := by
      unfold comboKey
      rw [h2]
      decide
    constructor
    · unfold comboCount
      rw [List.filterMap_cons, k1]
      rw [List.filterMap_cons, k2]
      rfl
    · intro k hk
      unfold comboCount
      rw [List.filterMap_cons, k1]
      rw [List.filterMap_cons, k2]
      simp [List.count_cons, hk]

/-- Claim C6 witness: two identical fentanyl and cocaine cases. -/
theorem claim6_witness :
    comboCount ["combined_od1", "combined_od2"] [rowFentCoc, rowFentCoc]
      "Cocaine + Fentanyl" = 2 :=
  (claim6_combo_aggregator.2.2.2 ["combined_od1", "combined_od2"]
    rowFentCoc rowFentCoc rfl rfl).1
